import Mathlib

/-!
Verification development for the KMIP BIO exchange engine (`src/kmip_bio.c`).

The file shallowly embeds the four exchange functions of the source —
`kmip_bio_create`, `kmip_bio_destroy`, `kmip_bio_get_symmetric_key` and
`kmip_bio_send_request_encoding` — as pure Lean functions over explicit
oracles for their external collaborators:

* the transport (`BIO_write` / `BIO_read` results and delivered bytes),
* the injectable allocator (`calloc_func` / `realloc_func` success, and the
  uninitialized contents a `realloc` extension exposes),
* the codec (`encode_request_message` as a required-size oracle,
  `decode_response_message` as a function of the received bytes).

Each run produces a return outcome, the sequence of collaborator calls the
code performs (writes, reads, the body-growth reallocation, the zeroing of
the grown region, and the access to the first batch item), and the values
the function stores through its caller-owned output parameters.
-/

namespace KmipBio

/-- KMIP result status carried by a response batch item (`enum result_status`). -/
inductive result_status
| success
| operationFailed
| operationPending
| operationUndone
deriving DecidableEq, Repr

/-- KMIP object type, as far as `kmip_bio_get_symmetric_key` inspects it:
`KMIP_OBJTYPE_SYMMETRIC_KEY` against everything else. -/
inductive object_type
| symmetricKey
| other (code : Int)
deriving DecidableEq, Repr

/-- KMIP key format type: `KMIP_KEYFORMAT_RAW` against everything else. -/
inductive key_format_type
| raw
| other (code : Int)
deriving DecidableEq, Repr

/-- `struct key_value`: the key material is a `byte_string` behind a pointer
that may be NULL; we keep the bytes of the byte string. -/
structure key_value where
  keyMaterial : Option (List Nat)
deriving DecidableEq, Repr

/-- `struct key_block`: format type, optional wrapping data (only its
presence matters to the source), and the key value behind a pointer. -/
structure key_block where
  keyFormatType : key_format_type
  keyWrappingData : Option Unit
  keyValue : Option key_value
deriving DecidableEq, Repr

/-- `struct symmetric_key`: a key block behind a pointer. -/
structure symmetric_key where
  keyBlock : Option key_block
deriving DecidableEq, Repr

/-- `struct get_response_payload`: the declared object type and the returned
object behind a pointer. -/
structure get_response_payload where
  objectType : object_type
  object : Option symmetric_key
deriving DecidableEq, Repr

/-- `struct create_response_payload`: the server-assigned unique identifier
(`text_string`) behind a pointer that may be NULL. -/
structure create_response_payload where
  uniqueIdentifier : Option (List Nat)
deriving DecidableEq, Repr

/-- The response payload a decoded batch item carries. The source casts a
`void *` unconditionally, so a payload of the wrong shape is possible. -/
inductive response_payload
| create (p : create_response_payload)
| get (p : get_response_payload)
deriving DecidableEq, Repr

/-- `struct response_batch_item`, restricted to the fields the source reads. -/
structure response_batch_item where
  resultStatus : result_status
  responsePayload : Option response_payload
deriving DecidableEq, Repr

/-- `struct response_message`, restricted to the fields the source reads:
the decoded batch count and the batch item array behind a pointer. -/
structure response_message where
  batchCount : Int
  batchItems : Option (List response_batch_item)
deriving DecidableEq, Repr

/-- Result of a `decode_response_message` call: a KMIP error code, or a
decoded response message. -/
inductive DecodeResult
| err (code : Int)
| ok (rm : response_message)
deriving DecidableEq, Repr

/-- Result of `encode_request_message` once the buffer is large enough:
`KMIP_OK`, or some error code other than `KMIP_ERROR_BUFFER_FULL`. -/
inductive EncodeFinal
| ok
| err (code : Int)
deriving DecidableEq, Repr

/-- Oracle for the codec's `encode_request_message`: a well-behaved codec
reports `KMIP_ERROR_BUFFER_FULL` exactly while the buffer is smaller than
`requiredSize`, and otherwise returns `finalResult`, having written
`encodedLen` bytes (`ctx.index - ctx.buffer`) whose contents are
`encodedBytes`. -/
structure EncodeOracle where
  requiredSize : Nat
  finalResult : EncodeFinal
  encodedLen : Nat
  encodedBytes : List Nat

/-- Oracle for the context's injectable allocator: whether each allocation
call site of the source succeeds, indexed as the source orders them, and the
uninitialized contents exposed by the body-growth `realloc` extension. -/
structure AllocOracle where
  initOk : Bool
  growOk : Nat → Bool
  headerOk : Bool
  reallocOk : Bool
  reallocJunk : List Nat
  outOk : Bool

/-- Oracle for the transport collaborator: what `BIO_write` reports, and what
each of the two `BIO_read` calls reports and delivers. -/
structure Transport where
  writeRet : Int
  headerBytes : List Nat
  headerRet : Int
  bodyBytes : List Nat
  bodyRet : Int

/-- A collaborator call the source performs, in program order: a transport
write with the bytes handed over, a transport read with the requested byte
count, the body-growth reallocation with the requested growth, the zeroing
of the grown region, and the access to `batch_items[0]`. -/
inductive Event
| writeEv (bytes : List Nat) (ret : Int)
| readEv (count : Int) (ret : Int)
| reallocEv (growth : Int) (ok : Bool)
| memsetEv (offset : Nat) (count : Int)
| batchItemEv
deriving DecidableEq, Repr

/-- The discriminated outcome of one exchange call. `status s` is the
result status the source returns as its `int` after a decoded exchange;
`undefinedBehavior` marks the points where the source dereferences a NULL
or type-confused pointer and C attaches no defined result. -/
inductive Outcome
| ok
| status (s : result_status)
| memoryAllocFailed
| ioFailure
| exceedMaxMessageSize
| malformedResponse
| objectMismatch
| encodingFailed (code : Int)
| decodingFailed (code : Int)
| undefinedBehavior
deriving DecidableEq, Repr

/-- Modelled from the spec: `decode_int32_be` lives in `kmip.c`, which is not
part of the sources here; §6 of the spec specifies it as "a length-field
reader that interprets 4 bytes as a big-endian signed 32-bit integer".
The source advances the cursor 4 bytes first, so the field read is bytes
4..7 of the 8-byte header buffer. -/
def decode_int32_be (b : List Nat) : Int :=
  let u : Nat := (b.getD 4 0) * 16777216 + (b.getD 5 0) * 65536 +
    (b.getD 6 0) * 256 + (b.getD 7 0)
  if u < 2147483648 then (u : Int) else (u : Int) - 4294967296

/-- A `calloc_func` allocation of `n` bytes: the region is zero-filled. -/
def callocBuf (n : Nat) : List Nat := List.replicate n 0

/-- The 8-byte header buffer after a full header read: the bytes the
transport delivered, reduced to octets and cut to the 8 requested bytes. -/
def headerBuffer (tr : Transport) : List Nat :=
  ((tr.headerBytes.map (fun b => b % 256)) ++ List.replicate 8 0).take 8

/-- The `L` body bytes after a full body read, reduced to octets and cut to
the requested count. -/
def bodyBuffer (tr : Transport) (L : Nat) : List Nat :=
  ((tr.bodyBytes.map (fun b => b % 256)) ++ List.replicate L 0).take L

/-- The buffer after `realloc_func(encoding, 8 + L)`: the old bytes are
preserved and the added `L` bytes hold whatever the allocator exposes. -/
def reallocExtend (old junk : List Nat) (L : Nat) : List Nat :=
  old ++ ((junk.map (fun b => b % 256)) ++ List.replicate L 0).take L

/-- `memset_func(buf + off, 0, n)` over an in-bounds region: the `n` bytes
from offset `off` become zero and nothing else changes. -/
def memsetRange (buf : List Nat) (off n : Nat) : List Nat :=
  buf.take off ++ List.replicate (min n (buf.length - off)) 0 ++ buf.drop (off + n)

/-- The full `8 + L` byte buffer handed to the decoder (and, for the raw
passthrough, to the caller): header read, body-growth reallocation, zeroing
of the grown region, then the body read over it. -/
def receivedBuffer (tr : Transport) (al : AllocOracle) : List Nat :=
  let hdr := headerBuffer tr
  let L := (decode_int32_be hdr).toNat
  (memsetRange (reallocExtend hdr al.reallocJunk L) 8 L).take 8 ++ bodyBuffer tr L

/-- Exit state of the encode-retry loop (`kmip_bio.c` lines 79-101): a
regrowth allocation failed, encoding ended with an error other than
`KMIP_ERROR_BUFFER_FULL`, or encoding succeeded; the loop leaves
`buffer_blocks` blocks of 1024 bytes. -/
inductive EncodeLoopResult
| allocFailed
| encodeErr (code : Int) (blocks : Nat)
| success (blocks : Nat)
deriving DecidableEq, Repr

/-- The encode-retry loop of `kmip_bio.c` lines 79-101 (duplicated verbatim
in `kmip_bio_destroy` and `kmip_bio_get_symmetric_key`): while the codec
reports `KMIP_ERROR_BUFFER_FULL` — that is, while `blocks * 1024` is below
the codec's required size — free the buffer, grow `buffer_blocks` by one,
and allocate `blocks * 1024` afresh; stop when the regrowth allocation fails
or the codec stops reporting a full buffer. -/
def encodeRetry (growOk : Nat → Bool) (S : Nat) (final : EncodeFinal)
    (blocks : Nat) : EncodeLoopResult :=
  if blocks * 1024 < S then
    if growOk (blocks + 1) then
      encodeRetry growOk S final (blocks + 1)
    else
      .allocFailed
  else
    match final with
    | .ok => .success blocks
    | .err c => .encodeErr c blocks
termination_by S - blocks * 1024
decreasing_by omega

/-- Result of one modelled `kmip_bio_create` call: the returned code, the
collaborator-call trace, and what was stored through `*id` and `*id_size`. -/
structure CreateRun where
  outcome : Outcome
  trace : List Event
  idOut : Option (List Nat)
  idSizeOut : Option Nat
deriving DecidableEq, Repr

/-- Result of one modelled `kmip_bio_destroy` call. -/
structure DestroyRun where
  outcome : Outcome
  trace : List Event
deriving DecidableEq, Repr

/-- Result of one modelled `kmip_bio_get_symmetric_key` call: the returned
code, the trace, and what was stored through `*key` and `*key_size`. -/
structure GetRun where
  outcome : Outcome
  trace : List Event
  keyOut : Option (List Nat)
  keySizeOut : Option Nat
deriving DecidableEq, Repr

/-- Result of one modelled `kmip_bio_send_request_encoding` call: the
returned code, the trace, and what was stored through `*response` and
`*response_size`. -/
structure RawRun where
  outcome : Outcome
  trace : List Event
  responseOut : Option (List Nat)
  responseSizeOut : Option Nat
deriving DecidableEq, Repr

/-- `kmip_bio_create` (`kmip_bio.c` lines 30-226). Allocates the initial
1024-byte encode buffer, runs the encode-retry loop, writes the encoding,
reads the 8-byte header, checks the declared length against
`max_message_size`, grows the buffer by the declared length via
`realloc_func` (whose NULL result the source does not check: it stores the
result and zeroes through it, line 160-165), reads the body, decodes, checks
the batch shape, and copies the unique identifier of `batch_items[0]`'s
create payload into `*id` / `*id_size` without inspecting the result status. -/
def kmip_bio_create (mms : Int) (enc : EncodeOracle) (al : AllocOracle)
    (tr : Transport) (dec : List Nat → DecodeResult) : CreateRun :=
  if al.initOk = false then ⟨.memoryAllocFailed, [], none, none⟩ else
  match encodeRetry al.growOk enc.requiredSize enc.finalResult 1 with
  | .allocFailed => ⟨.memoryAllocFailed, [], none, none⟩
  | .encodeErr c _ => ⟨.encodingFailed c, [], none, none⟩
  | .success _ =>
    let wEv := Event.writeEv enc.encodedBytes tr.writeRet
    if tr.writeRet ≠ (enc.encodedLen : Int) then ⟨.ioFailure, [wEv], none, none⟩ else
    if al.headerOk = false then ⟨.memoryAllocFailed, [wEv], none, none⟩ else
    let r1Ev := Event.readEv 8 tr.headerRet
    if tr.headerRet ≠ 8 then ⟨.ioFailure, [wEv, r1Ev], none, none⟩ else
    let length := decode_int32_be (headerBuffer tr)
    if length > mms then ⟨.exceedMaxMessageSize, [wEv, r1Ev], none, none⟩ else
    let reEv := Event.reallocEv length al.reallocOk
    if al.reallocOk = false then
      ⟨.undefinedBehavior, [wEv, r1Ev, reEv], none, none⟩ else
    let msEv := Event.memsetEv 8 length
    let r2Ev := Event.readEv length tr.bodyRet
    if tr.bodyRet ≠ length then
      ⟨.ioFailure, [wEv, r1Ev, reEv, msEv, r2Ev], none, none⟩ else
    let tBase := [wEv, r1Ev, reEv, msEv, r2Ev]
    match dec (receivedBuffer tr al) with
    | .err c => ⟨.decodingFailed c, tBase, none, none⟩
    | .ok rm =>
      match rm.batchItems with
      | none => ⟨.malformedResponse, tBase, none, none⟩
      | some items =>
        if rm.batchCount ≠ 1 then ⟨.malformedResponse, tBase, none, none⟩ else
        match items.head? with
        | none => ⟨.undefinedBehavior, tBase ++ [Event.batchItemEv], none, none⟩
        | some item =>
          let tAcc := tBase ++ [Event.batchItemEv]
          match item.responsePayload with
          | none => ⟨.undefinedBehavior, tAcc, none, none⟩
          | some (.get _) => ⟨.undefinedBehavior, tAcc, none, none⟩
          | some (.create p) =>
            match p.uniqueIdentifier with
            | none => ⟨.undefinedBehavior, tAcc, none, none⟩
            | some uid =>
              if al.outOk = false then
                if uid.length = 0 then
                  ⟨.status item.resultStatus, tAcc, some [], some 0⟩
                else
                  ⟨.undefinedBehavior, tAcc, none, some uid.length⟩
              else
                ⟨.status item.resultStatus, tAcc, some uid, some uid.length⟩

/-- `kmip_bio_destroy` (`kmip_bio.c` lines 228-414): identical pipeline to
`kmip_bio_create` up to and including the batch-shape check; the extraction
is only `result = batch_items[0].result_status`. -/
def kmip_bio_destroy (mms : Int) (enc : EncodeOracle) (al : AllocOracle)
    (tr : Transport) (dec : List Nat → DecodeResult) : DestroyRun :=
  if al.initOk = false then ⟨.memoryAllocFailed, []⟩ else
  match encodeRetry al.growOk enc.requiredSize enc.finalResult 1 with
  | .allocFailed => ⟨.memoryAllocFailed, []⟩
  | .encodeErr c _ => ⟨.encodingFailed c, []⟩
  | .success _ =>
    let wEv := Event.writeEv enc.encodedBytes tr.writeRet
    if tr.writeRet ≠ (enc.encodedLen : Int) then ⟨.ioFailure, [wEv]⟩ else
    if al.headerOk = false then ⟨.memoryAllocFailed, [wEv]⟩ else
    let r1Ev := Event.readEv 8 tr.headerRet
    if tr.headerRet ≠ 8 then ⟨.ioFailure, [wEv, r1Ev]⟩ else
    let length := decode_int32_be (headerBuffer tr)
    if length > mms then ⟨.exceedMaxMessageSize, [wEv, r1Ev]⟩ else
    let reEv := Event.reallocEv length al.reallocOk
    if al.reallocOk = false then ⟨.undefinedBehavior, [wEv, r1Ev, reEv]⟩ else
    let msEv := Event.memsetEv 8 length
    let r2Ev := Event.readEv length tr.bodyRet
    if tr.bodyRet ≠ length then ⟨.ioFailure, [wEv, r1Ev, reEv, msEv, r2Ev]⟩ else
    let tBase := [wEv, r1Ev, reEv, msEv, r2Ev]
    match dec (receivedBuffer tr al) with
    | .err c => ⟨.decodingFailed c, tBase⟩
    | .ok rm =>
      match rm.batchItems with
      | none => ⟨.malformedResponse, tBase⟩
      | some items =>
        if rm.batchCount ≠ 1 then ⟨.malformedResponse, tBase⟩ else
        match items.head? with
        | none => ⟨.undefinedBehavior, tBase ++ [Event.batchItemEv]⟩
        | some item => ⟨.status item.resultStatus, tBase ++ [Event.batchItemEv]⟩

/-- `kmip_bio_get_symmetric_key` (`kmip_bio.c` lines 416-646): identical
pipeline to `kmip_bio_create` up to the batch-shape check; then it returns
the result status as-is when it is not `KMIP_STATUS_SUCCESS` (line 596),
rejects with `KMIP_OBJECT_MISMATCH` an object type other than
`KMIP_OBJTYPE_SYMMETRIC_KEY` (line 607), a key format other than
`KMIP_KEYFORMAT_RAW` or present key wrapping data (line 617), and otherwise
copies the raw key material into `*key` / `*key_size`. -/
def kmip_bio_get_symmetric_key (mms : Int) (enc : EncodeOracle)
    (al : AllocOracle) (tr : Transport) (dec : List Nat → DecodeResult) : GetRun :=
  if al.initOk = false then ⟨.memoryAllocFailed, [], none, none⟩ else
  match encodeRetry al.growOk enc.requiredSize enc.finalResult 1 with
  | .allocFailed => ⟨.memoryAllocFailed, [], none, none⟩
  | .encodeErr c _ => ⟨.encodingFailed c, [], none, none⟩
  | .success _ =>
    let wEv := Event.writeEv enc.encodedBytes tr.writeRet
    if tr.writeRet ≠ (enc.encodedLen : Int) then ⟨.ioFailure, [wEv], none, none⟩ else
    if al.headerOk = false then ⟨.memoryAllocFailed, [wEv], none, none⟩ else
    let r1Ev := Event.readEv 8 tr.headerRet
    if tr.headerRet ≠ 8 then ⟨.ioFailure, [wEv, r1Ev], none, none⟩ else
    let length := decode_int32_be (headerBuffer tr)
    if length > mms then ⟨.exceedMaxMessageSize, [wEv, r1Ev], none, none⟩ else
    let reEv := Event.reallocEv length al.reallocOk
    if al.reallocOk = false then
      ⟨.undefinedBehavior, [wEv, r1Ev, reEv], none, none⟩ else
    let msEv := Event.memsetEv 8 length
    let r2Ev := Event.readEv length tr.bodyRet
    if tr.bodyRet ≠ length then
      ⟨.ioFailure, [wEv, r1Ev, reEv, msEv, r2Ev], none, none⟩ else
    let tBase := [wEv, r1Ev, reEv, msEv, r2Ev]
    match dec (receivedBuffer tr al) with
    | .err c => ⟨.decodingFailed c, tBase, none, none⟩
    | .ok rm =>
      match rm.batchItems with
      | none => ⟨.malformedResponse, tBase, none, none⟩
      | some items =>
        if rm.batchCount ≠ 1 then ⟨.malformedResponse, tBase, none, none⟩ else
        match items.head? with
        | none => ⟨.undefinedBehavior, tBase ++ [Event.batchItemEv], none, none⟩
        | some item =>
          let tAcc := tBase ++ [Event.batchItemEv]
          if item.resultStatus ≠ .success then
            ⟨.status item.resultStatus, tAcc, none, none⟩ else
          match item.responsePayload with
          | none => ⟨.undefinedBehavior, tAcc, none, none⟩
          | some (.create _) => ⟨.undefinedBehavior, tAcc, none, none⟩
          | some (.get p) =>
            if p.objectType ≠ .symmetricKey then
              ⟨.objectMismatch, tAcc, none, none⟩ else
            match p.object with
            | none => ⟨.undefinedBehavior, tAcc, none, none⟩
            | some sk =>
              match sk.keyBlock with
              | none => ⟨.undefinedBehavior, tAcc, none, none⟩
              | some block =>
                if block.keyFormatType ≠ .raw ∨ block.keyWrappingData ≠ none then
                  ⟨.objectMismatch, tAcc, none, none⟩ else
                match block.keyValue with
                | none => ⟨.undefinedBehavior, tAcc, none, none⟩
                | some kv =>
                  match kv.keyMaterial with
                  | none => ⟨.undefinedBehavior, tAcc, none, none⟩
                  | some material =>
                    if al.outOk = false then
                      if material.length = 0 then
                        ⟨.status item.resultStatus, tAcc, some [], some 0⟩
                      else
                        ⟨.undefinedBehavior, tAcc, none, some material.length⟩
                    else
                      ⟨.status item.resultStatus, tAcc, some material,
                        some material.length⟩

/-- `kmip_bio_send_request_encoding` (`kmip_bio.c` lines 894-972): writes the
caller's already-encoded `request_size` bytes once, with no retry loop; reads
the 8-byte header, checks the declared length, grows the buffer (again with
the unchecked `realloc_func`), zeroes the grown region, reads the body, and
hands the whole `8 + length` byte buffer back through `*response` /
`*response_size` undecoded, returning `KMIP_OK`. The stored size is
`buffer_total_size`, a `size_t` computed as `8 + length` modulo `2 ^ 64`. -/
def kmip_bio_send_request_encoding (mms : Int) (request : List Nat)
    (al : AllocOracle) (tr : Transport) : RawRun :=
  let wEv := Event.writeEv request tr.writeRet
  if tr.writeRet ≠ (request.length : Int) then ⟨.ioFailure, [wEv], none, none⟩ else
  if al.headerOk = false then ⟨.memoryAllocFailed, [wEv], none, none⟩ else
  let r1Ev := Event.readEv 8 tr.headerRet
  if tr.headerRet ≠ 8 then ⟨.ioFailure, [wEv, r1Ev], none, none⟩ else
  let length := decode_int32_be (headerBuffer tr)
  if length > mms then ⟨.exceedMaxMessageSize, [wEv, r1Ev], none, none⟩ else
  let reEv := Event.reallocEv length al.reallocOk
  if al.reallocOk = false then
    ⟨.undefinedBehavior, [wEv, r1Ev, reEv], none, none⟩ else
  let msEv := Event.memsetEv 8 length
  let r2Ev := Event.readEv length tr.bodyRet
  if tr.bodyRet ≠ length then
    ⟨.ioFailure, [wEv, r1Ev, reEv, msEv, r2Ev], none, none⟩ else
  ⟨.ok, [wEv, r1Ev, reEv, msEv, r2Ev], some (receivedBuffer tr al),
    some (((8 + length) % 18446744073709551616).toNat)⟩

/-- Number of transport reads in a trace. -/
def readCount (t : List Event) : Nat :=
  t.countP (fun e => match e with | .readEv _ _ => true | _ => false)

/-- Number of transport writes in a trace. -/
def writeCount (t : List Event) : Nat :=
  t.countP (fun e => match e with | .writeEv _ _ => true | _ => false)

/-- Exit step of the encode-retry loop: once the buffer holds the codec's
required size, the loop returns the codec's final result with the current
block count. -/
lemma encodeRetry_done (growOk : Nat → Bool) (S : Nat) (final : EncodeFinal)
    (blocks : Nat) (h : ¬ blocks * 1024 < S) :
    encodeRetry growOk S final blocks =
      match final with
      | .ok => .success blocks
      | .err c => .encodeErr c blocks := by
  unfold encodeRetry
  simp [h]

/-- Iteration step of the encode-retry loop: while the buffer is too small,
the loop regrows by one block and retries, or stops on allocation failure. -/
lemma encodeRetry_step (growOk : Nat → Bool) (S : Nat) (final : EncodeFinal)
    (blocks : Nat) (h : blocks * 1024 < S) :
    encodeRetry growOk S final blocks =
      if growOk (blocks + 1) then encodeRetry growOk S final (blocks + 1)
      else .allocFailed := by
  conv_lhs => unfold encodeRetry
  rw [if_pos h]

/-- With every regrowth allocation succeeding and a codec that eventually
encodes successfully, the loop ends with the least block count whose buffer
holds the required size (and never fewer blocks than it started with). -/
lemma encodeRetry_ok (growOk : Nat → Bool) (hgrow : ∀ n, growOk n = true)
    (S blocks : Nat) :
    encodeRetry growOk S .ok blocks = .success (max blocks ((S + 1023) / 1024)) := by
  have H : ∀ m blocks2, S - blocks2 * 1024 ≤ m →
      encodeRetry growOk S .ok blocks2 = .success (max blocks2 ((S + 1023) / 1024)) := by
    intro m
    induction m with
    | zero =>
      intro blocks2 hb
      have h : ¬ blocks2 * 1024 < S := by omega
      rw [encodeRetry_done growOk S .ok blocks2 h]
      have hmax : max blocks2 ((S + 1023) / 1024) = blocks2 := by omega
      rw [hmax]
    | succ n ih =>
      intro blocks2 hb
      by_cases h : blocks2 * 1024 < S
      · rw [encodeRetry_step growOk S .ok blocks2 h, hgrow (blocks2 + 1),
          if_pos rfl, ih (blocks2 + 1) (by omega)]
        have hmax : max (blocks2 + 1) ((S + 1023) / 1024) =
            max blocks2 ((S + 1023) / 1024) := by omega
        rw [hmax]
      · rw [encodeRetry_done growOk S .ok blocks2 h]
        have hmax : max blocks2 ((S + 1023) / 1024) = blocks2 := by omega
        rw [hmax]
  exact H (S - blocks * 1024) blocks (Nat.le_refl _)

/-- The loop exits only by allocation failure or by handing back the codec's
final result. -/
lemma encodeRetry_exits (growOk : Nat → Bool) (S : Nat) (final : EncodeFinal)
    (blocks : Nat) :
    encodeRetry growOk S final blocks = .allocFailed
    ∨ (∃ b, final = .ok ∧ encodeRetry growOk S final blocks = .success b)
    ∨ (∃ c b, final = .err c ∧ encodeRetry growOk S final blocks = .encodeErr c b) := by
  have H : ∀ m blocks2, S - blocks2 * 1024 ≤ m →
      encodeRetry growOk S final blocks2 = .allocFailed
      ∨ (∃ b, final = .ok ∧ encodeRetry growOk S final blocks2 = .success b)
      ∨ (∃ c b, final = .err c ∧
          encodeRetry growOk S final blocks2 = .encodeErr c b) := by
    intro m
    induction m with
    | zero =>
      intro blocks2 hb
      have h : ¬ blocks2 * 1024 < S := by omega
      rw [encodeRetry_done growOk S final blocks2 h]
      match final with
      | .ok => exact Or.inr (Or.inl ⟨blocks2, rfl, rfl⟩)
      | .err c => exact Or.inr (Or.inr ⟨c, blocks2, rfl, rfl⟩)
    | succ n ih =>
      intro blocks2 hb
      by_cases h : blocks2 * 1024 < S
      · rw [encodeRetry_step growOk S final blocks2 h]
        by_cases hg : growOk (blocks2 + 1) = true
        · rw [if_pos hg]
          exact ih (blocks2 + 1) (by omega)
        · rw [if_neg hg]
          exact Or.inl rfl
      · rw [encodeRetry_done growOk S final blocks2 h]
        match final with
        | .ok => exact Or.inr (Or.inl ⟨blocks2, rfl, rfl⟩)
        | .err c => exact Or.inr (Or.inr ⟨c, blocks2, rfl, rfl⟩)
  exact H (S - blocks * 1024) blocks (Nat.le_refl _)

/-- The header buffer read by the receiver always has the 8 requested bytes. -/
lemma headerBuffer_length (tr : Transport) : (headerBuffer tr).length = 8 := by
  simp [headerBuffer]

/-- The body buffer read by the receiver has exactly the requested bytes. -/
lemma bodyBuffer_length (tr : Transport) (L : Nat) :
    (bodyBuffer tr L).length = L := by
  simp [bodyBuffer]

/-- Every byte of the header buffer is an octet. -/
lemma headerBuffer_getD_lt (tr : Transport) (i : Nat) :
    (headerBuffer tr).getD i 0 < 256 := by
  by_cases h : i < (headerBuffer tr).length
  · rw [List.getD_eq_getElem _ _ h]
    have hb : (headerBuffer tr)[i] ∈ headerBuffer tr := List.getElem_mem h
    have hb2 : (headerBuffer tr)[i] ∈
        (tr.headerBytes.map (fun b => b % 256)) ++ List.replicate 8 0 :=
      List.take_subset _ _ hb
    rcases List.mem_append.mp hb2 with hm | hm
    · rcases List.mem_map.mp hm with ⟨a, _, ha⟩
      rw [← ha]
      exact Nat.mod_lt a (by norm_num)
    · rw [List.eq_of_mem_replicate hm]
      norm_num
  · rw [List.getD_eq_default _ _ (by omega)]
    norm_num

/-- The declared length decoded from the header buffer is a signed 32-bit
value. -/
lemma decode_int32_be_bounds (tr : Transport) :
    -2147483648 ≤ decode_int32_be (headerBuffer tr)
    ∧ decode_int32_be (headerBuffer tr) < 2147483648 := by
  have h4 := headerBuffer_getD_lt tr 4
  have h5 := headerBuffer_getD_lt tr 5
  have h6 := headerBuffer_getD_lt tr 6
  have h7 := headerBuffer_getD_lt tr 7
  simp only [decode_int32_be]
  constructor
  · split <;> omega
  · split <;> omega

/-- Growing the buffer by `L` bytes and then zeroing `L` bytes at offset 8
leaves the 8 header bytes intact and exactly the added `L` bytes zero,
whatever the reallocation exposed in the added region. -/
lemma memsetRange_reallocExtend (hdr junk : List Nat) (L : Nat)
    (hlen : hdr.length = 8) :
    memsetRange (reallocExtend hdr junk L) 8 L = hdr ++ List.replicate L 0 := by
  have hex : (reallocExtend hdr junk L).length = 8 + L := by
    simp [reallocExtend, hlen]
  have htake : (reallocExtend hdr junk L).take 8 = hdr := by
    unfold reallocExtend
    rw [← hlen, List.take_left]
  have hdrop : (reallocExtend hdr junk L).drop (8 + L) = [] := by
    rw [List.drop_eq_nil_iff]
    omega
  rw [memsetRange, htake, hdrop, hex]
  simp

/-- The buffer handed onward after a full receive is the 8 header bytes
followed by the body bytes the transport delivered. -/
lemma receivedBuffer_eq (tr : Transport) (al : AllocOracle) :
    receivedBuffer tr al =
      headerBuffer tr ++
        bodyBuffer tr (decode_int32_be (headerBuffer tr)).toNat := by
  simp only [receivedBuffer]
  rw [memsetRange_reallocExtend _ _ _ (headerBuffer_length tr)]
  rw [← headerBuffer_length tr, List.take_left]

/-- Once `kmip_bio_create` passes the maximum-message-size check with a
working reallocation, its trace starts with the write, the header read, the
reallocation, the zeroing of the grown region, and the body read — in that
order — and its outcome can no longer be `KMIP_EXCEED_MAX_MESSAGE_SIZE`. -/
lemma create_after_length_check (mms : Int) (enc : EncodeOracle)
    (al : AllocOracle) (tr : Transport) (dec : List Nat → DecodeResult) (b : Nat)
    (hinit : al.initOk = true)
    (henc : encodeRetry al.growOk enc.requiredSize enc.finalResult 1 = .success b)
    (hw : tr.writeRet = (enc.encodedLen : Int))
    (hho : al.headerOk = true)
    (hr1 : tr.headerRet = 8)
    (hLle : ¬ decode_int32_be (headerBuffer tr) > mms)
    (hre : al.reallocOk = true) :
    ((kmip_bio_create mms enc al tr dec).trace.take 5 =
      [Event.writeEv enc.encodedBytes tr.writeRet, Event.readEv 8 tr.headerRet,
       Event.reallocEv (decode_int32_be (headerBuffer tr)) true,
       Event.memsetEv 8 (decode_int32_be (headerBuffer tr)),
       Event.readEv (decode_int32_be (headerBuffer tr)) tr.bodyRet])
    ∧ (kmip_bio_create mms enc al tr dec).outcome ≠ .exceedMaxMessageSize := by
  simp only [kmip_bio_create, hinit, henc, hw, hho, hr1, hLle, hre]
  norm_num
  refine ⟨?_, ?_⟩ <;> (repeat' split) <;> simp_all

/-- The `kmip_bio_destroy` counterpart of `create_after_length_check`. -/
lemma destroy_after_length_check (mms : Int) (enc : EncodeOracle)
    (al : AllocOracle) (tr : Transport) (dec : List Nat → DecodeResult) (b : Nat)
    (hinit : al.initOk = true)
    (henc : encodeRetry al.growOk enc.requiredSize enc.finalResult 1 = .success b)
    (hw : tr.writeRet = (enc.encodedLen : Int))
    (hho : al.headerOk = true)
    (hr1 : tr.headerRet = 8)
    (hLle : ¬ decode_int32_be (headerBuffer tr) > mms)
    (hre : al.reallocOk = true) :
    ((kmip_bio_destroy mms enc al tr dec).trace.take 5 =
      [Event.writeEv enc.encodedBytes tr.writeRet, Event.readEv 8 tr.headerRet,
       Event.reallocEv (decode_int32_be (headerBuffer tr)) true,
       Event.memsetEv 8 (decode_int32_be (headerBuffer tr)),
       Event.readEv (decode_int32_be (headerBuffer tr)) tr.bodyRet])
    ∧ (kmip_bio_destroy mms enc al tr dec).outcome ≠ .exceedMaxMessageSize := by
  simp only [kmip_bio_destroy, hinit, henc, hw, hho, hr1, hLle, hre]
  norm_num
  refine ⟨?_, ?_⟩ <;> (repeat' split) <;> simp_all

/-- The `kmip_bio_get_symmetric_key` counterpart of
`create_after_length_check`. -/
lemma get_after_length_check (mms : Int) (enc : EncodeOracle)
    (al : AllocOracle) (tr : Transport) (dec : List Nat → DecodeResult) (b : Nat)
    (hinit : al.initOk = true)
    (henc : encodeRetry al.growOk enc.requiredSize enc.finalResult 1 = .success b)
    (hw : tr.writeRet = (enc.encodedLen : Int))
    (hho : al.headerOk = true)
    (hr1 : tr.headerRet = 8)
    (hLle : ¬ decode_int32_be (headerBuffer tr) > mms)
    (hre : al.reallocOk = true) :
    ((kmip_bio_get_symmetric_key mms enc al tr dec).trace.take 5 =
      [Event.writeEv enc.encodedBytes tr.writeRet, Event.readEv 8 tr.headerRet,
       Event.reallocEv (decode_int32_be (headerBuffer tr)) true,
       Event.memsetEv 8 (decode_int32_be (headerBuffer tr)),
       Event.readEv (decode_int32_be (headerBuffer tr)) tr.bodyRet])
    ∧ (kmip_bio_get_symmetric_key mms enc al tr dec).outcome
        ≠ .exceedMaxMessageSize := by
  simp only [kmip_bio_get_symmetric_key, hinit, henc, hw, hho, hr1, hLle, hre]
  norm_num
  refine ⟨?_, ?_⟩ <;> (repeat' split) <;> simp_all

/-- The `kmip_bio_send_request_encoding` counterpart of
`create_after_length_check`. -/
lemma raw_after_length_check (mms : Int) (request : List Nat)
    (al : AllocOracle) (tr : Transport)
    (hw : tr.writeRet = (request.length : Int))
    (hho : al.headerOk = true)
    (hr1 : tr.headerRet = 8)
    (hLle : ¬ decode_int32_be (headerBuffer tr) > mms)
    (hre : al.reallocOk = true) :
    ((kmip_bio_send_request_encoding mms request al tr).trace.take 5 =
      [Event.writeEv request tr.writeRet, Event.readEv 8 tr.headerRet,
       Event.reallocEv (decode_int32_be (headerBuffer tr)) true,
       Event.memsetEv 8 (decode_int32_be (headerBuffer tr)),
       Event.readEv (decode_int32_be (headerBuffer tr)) tr.bodyRet])
    ∧ (kmip_bio_send_request_encoding mms request al tr).outcome
        ≠ .exceedMaxMessageSize := by
  simp only [kmip_bio_send_request_encoding, hw, hho, hr1, hLle, hre]
  norm_num
  refine ⟨?_, ?_⟩ <;> (repeat' split) <;> simp_all

/-- A codec oracle for concrete runs: the request needs 100 bytes, encoding
succeeds, and 100 bytes are produced. -/
def encW : EncodeOracle := ⟨100, .ok, 100, List.replicate 100 7⟩

/-- An allocator oracle for concrete runs: every allocation succeeds and the
reallocation exposes the junk bytes 9, 9, 9. -/
def alW : AllocOracle := ⟨true, fun _ => true, true, true, [9, 9, 9], true⟩

/-- A transport oracle whose response header declares a 32-byte body. -/
def trExceedW : Transport := ⟨100, [0, 0, 0, 0, 0, 0, 0, 32], 8, [], 0⟩

/-- A raw request of 100 bytes for concrete runs. -/
def reqW : List Nat := List.replicate 100 7

/-- A decoder oracle returning a well-shaped successful response carrying a
raw, unwrapped symmetric key. -/
def decW : List Nat → DecodeResult := fun _ =>
  .ok ⟨1, some [⟨.success,
    some (.get ⟨.symmetricKey, some ⟨some ⟨.raw, none, some ⟨some [1, 2, 3]⟩⟩⟩⟩)⟩]⟩

/-- C1: for every operation (create, destroy, getSymmetricKey, raw
passthrough), a server response whose declared body length — the big-endian
32-bit integer at byte offset 4 of the 8-byte header — exceeds
`max_message_size` makes the call return `KMIP_EXCEED_MAX_MESSAGE_SIZE`,
and the body read is never attempted: the only transport read in the trace
is the header read. -/
theorem C1_exceed_max_size_before_body_read
    (mms : Int) (enc : EncodeOracle) (al : AllocOracle) (tr : Transport)
    (dec : List Nat → DecodeResult) (request : List Nat) (b : Nat)
    (hinit : al.initOk = true)
    (henc : encodeRetry al.growOk enc.requiredSize enc.finalResult 1 = .success b)
    (hw : tr.writeRet = (enc.encodedLen : Int))
    (hwr : tr.writeRet = (request.length : Int))
    (hho : al.headerOk = true)
    (hr1 : tr.headerRet = 8)
    (hL : decode_int32_be (headerBuffer tr) > mms) :
    ((kmip_bio_create mms enc al tr dec).outcome = .exceedMaxMessageSize
      ∧ readCount (kmip_bio_create mms enc al tr dec).trace = 1)
    ∧ ((kmip_bio_destroy mms enc al tr dec).outcome = .exceedMaxMessageSize
      ∧ readCount (kmip_bio_destroy mms enc al tr dec).trace = 1)
    ∧ ((kmip_bio_get_symmetric_key mms enc al tr dec).outcome
        = .exceedMaxMessageSize
      ∧ readCount (kmip_bio_get_symmetric_key mms enc al tr dec).trace = 1)
    ∧ ((kmip_bio_send_request_encoding mms request al tr).outcome
        = .exceedMaxMessageSize
      ∧ readCount (kmip_bio_send_request_encoding mms request al tr).trace = 1) := by
  have hlen : enc.encodedLen = request.length := by
    exact_mod_cast hw.symm.trans hwr
  refine ⟨⟨?_, ?_⟩, ⟨?_, ?_⟩, ⟨?_, ?_⟩, ⟨?_, ?_⟩⟩ <;>
    simp [kmip_bio_create, kmip_bio_destroy, kmip_bio_get_symmetric_key,
      kmip_bio_send_request_encoding, readCount, hinit, henc, hw, hwr, hho,
      hr1, hL, hlen]

/-- Witness for C1: with `max_message_size = 16` and a header declaring a
32-byte body, all four operations stop at the size check after the single
header read. -/
theorem C1_witness :
    ((kmip_bio_create 16 encW alW trExceedW decW).outcome = .exceedMaxMessageSize
      ∧ readCount (kmip_bio_create 16 encW alW trExceedW decW).trace = 1)
    ∧ ((kmip_bio_destroy 16 encW alW trExceedW decW).outcome = .exceedMaxMessageSize
      ∧ readCount (kmip_bio_destroy 16 encW alW trExceedW decW).trace = 1)
    ∧ ((kmip_bio_get_symmetric_key 16 encW alW trExceedW decW).outcome
        = .exceedMaxMessageSize
      ∧ readCount (kmip_bio_get_symmetric_key 16 encW alW trExceedW decW).trace = 1)
    ∧ ((kmip_bio_send_request_encoding 16 reqW alW trExceedW).outcome
        = .exceedMaxMessageSize
      ∧ readCount (kmip_bio_send_request_encoding 16 reqW alW trExceedW).trace
          = 1) :=
  C1_exceed_max_size_before_body_read 16 encW alW trExceedW decW reqW 1
    rfl (encodeRetry_done _ _ _ _ (by norm_num [encW])) rfl rfl rfl rfl (by decide)

/-- A transport oracle delivering a full, well-formed exchange: header
declaring a 16-byte body, then 16 body bytes. -/
def trOkW : Transport := ⟨100, [0, 0, 0, 0, 0, 0, 0, 16], 8, List.replicate 16 1, 16⟩

/-- Allocator oracle whose initial `calloc_func` call fails. -/
def alInitFailW : AllocOracle := ⟨false, fun _ => true, true, true, [], true⟩

/-- Allocator oracle whose regrowth `calloc_func` calls fail. -/
def alGrowFailW : AllocOracle := ⟨true, fun _ => false, true, true, [], true⟩

/-- Allocator oracle whose header-buffer `calloc_func` call fails. -/
def alHeaderFailW : AllocOracle := ⟨true, fun _ => true, false, true, [], true⟩

/-- Allocator oracle whose body-growth `realloc_func` call returns NULL. -/
def alReFailW : AllocOracle := ⟨true, fun _ => true, true, false, [], true⟩

/-- A codec oracle that needs 2000 bytes, forcing one regrowth. -/
def encGrowW : EncodeOracle := ⟨2000, .ok, 1500, List.replicate 1500 7⟩

/-- A decoder oracle returning a well-shaped response whose single batch
item reports `KMIP_STATUS_OPERATION_FAILED` and carries a create payload. -/
def decFailStatusW : List Nat → DecodeResult := fun _ =>
  .ok ⟨1, some [⟨.operationFailed, some (.create ⟨some [65, 66]⟩)⟩]⟩

/-- C2: the three `calloc_func` call sites the source checks (initial encode
buffer, regrown encode buffer, header buffer) do abort the call with
`KMIP_MEMORY_ALLOC_FAILED` and no further transport I/O — but the
body-growth `realloc_func` result is never checked: when it returns NULL the
source stores the NULL pointer and zeroes memory through it (lines 160-165),
undefined behavior rather than the `KMIP_MEMORY_ALLOC_FAILED` abort the
claim requires. -/
theorem C2_realloc_failure_not_alloc_abort :
    (kmip_bio_create 1000 encW alInitFailW trOkW decW
      = ⟨.memoryAllocFailed, [], none, none⟩)
    ∧ (kmip_bio_create 1000 encGrowW alGrowFailW trOkW decW
      = ⟨.memoryAllocFailed, [], none, none⟩)
    ∧ (kmip_bio_create 1000 encW alHeaderFailW trOkW decW
      = ⟨.memoryAllocFailed, [Event.writeEv (List.replicate 100 7) 100], none, none⟩)
    ∧ (kmip_bio_create 1000 encW alReFailW trOkW decW).outcome
        = .undefinedBehavior
    ∧ (kmip_bio_create 1000 encW alReFailW trOkW decW).outcome
        ≠ .memoryAllocFailed := by
  have hgrow : encodeRetry alGrowFailW.growOk encGrowW.requiredSize
      encGrowW.finalResult 1 = .allocFailed := by
    rw [encodeRetry_step _ _ _ _ (by norm_num [encGrowW])]
    simp [alGrowFailW]
  have hdoneH : encodeRetry alHeaderFailW.growOk encW.requiredSize
      encW.finalResult 1 = .success 1 :=
    encodeRetry_done _ _ _ _ (by norm_num [encW])
  have hdoneR : encodeRetry alReFailW.growOk encW.requiredSize
      encW.finalResult 1 = .success 1 :=
    encodeRetry_done _ _ _ _ (by norm_num [encW])
  refine ⟨?_, ?_, ?_, ?_, ?_⟩
  · unfold kmip_bio_create
    decide
  · unfold kmip_bio_create
    rw [hgrow]
    decide
  · unfold kmip_bio_create
    rw [hdoneH]
    decide
  · unfold kmip_bio_create
    rw [hdoneR]
    decide
  · unfold kmip_bio_create
    rw [hdoneR]
    decide

/-- C3: `kmip_bio_create` copies the unique identifier into `*id` and
`*id_size` without checking the result status (lines 202-215): a decoded
response whose single batch item reports `KMIP_STATUS_OPERATION_FAILED`
still has both output parameters populated while the call returns the
failure status — the claim requires the outputs to stay unpopulated on
every error return. -/
theorem C3_create_populates_outputs_on_failure_status :
    (kmip_bio_create 1000 encW alW trOkW decFailStatusW).outcome
      = .status .operationFailed
    ∧ (kmip_bio_create 1000 encW alW trOkW decFailStatusW).idOut = some [65, 66]
    ∧ (kmip_bio_create 1000 encW alW trOkW decFailStatusW).idSizeOut = some 2 := by
  have hdone : encodeRetry alW.growOk encW.requiredSize encW.finalResult 1
      = .success 1 := encodeRetry_done _ _ _ _ (by norm_num [encW])
  refine ⟨?_, ?_, ?_⟩ <;>
    · unfold kmip_bio_create
      rw [hdone]
      decide

/-- C4: the raw passthrough writes the caller's request bytes as-is in a
single transport write with no growth-on-overflow retry; its outcome is only
ever success, an I/O failure, an allocation failure, or the max-size
failure — never a protocol-level error (`ObjectMismatch`,
`MalformedResponse`, or a server result status such as `OperationFailed`);
and on success the caller receives the undecoded `8 + declaredLength` byte
buffer exactly as the transport delivered it, with its size recorded. -/
theorem C4_raw_passthrough_contract (mms : Int) (request : List Nat)
    (al : AllocOracle) (tr : Transport)
    (hre : al.reallocOk = true) :
    ((kmip_bio_send_request_encoding mms request al tr).outcome = .ok
      ∨ (kmip_bio_send_request_encoding mms request al tr).outcome = .ioFailure
      ∨ (kmip_bio_send_request_encoding mms request al tr).outcome
          = .memoryAllocFailed
      ∨ (kmip_bio_send_request_encoding mms request al tr).outcome
          = .exceedMaxMessageSize)
    ∧ (∀ s, (kmip_bio_send_request_encoding mms request al tr).outcome
          ≠ .objectMismatch
        ∧ (kmip_bio_send_request_encoding mms request al tr).outcome
            ≠ .malformedResponse
        ∧ (kmip_bio_send_request_encoding mms request al tr).outcome ≠ .status s)
    ∧ writeCount (kmip_bio_send_request_encoding mms request al tr).trace = 1
    ∧ (kmip_bio_send_request_encoding mms request al tr).trace.head? =
        some (Event.writeEv request tr.writeRet)
    ∧ ((kmip_bio_send_request_encoding mms request al tr).outcome = .ok →
        (kmip_bio_send_request_encoding mms request al tr).responseOut =
          some (headerBuffer tr ++
            bodyBuffer tr (decode_int32_be (headerBuffer tr)).toNat)
        ∧ ((kmip_bio_send_request_encoding mms request al tr).responseOut.map
            List.length) = some (8 + (decode_int32_be (headerBuffer tr)).toNat)
        ∧ (0 ≤ decode_int32_be (headerBuffer tr) →
            (kmip_bio_send_request_encoding mms request al tr).responseSizeOut =
              some (8 + (decode_int32_be (headerBuffer tr)).toNat))) := by
  have hb := decode_int32_be_bounds tr
  have hrb := receivedBuffer_eq tr al
  have hhl := headerBuffer_length tr
  have hbl := bodyBuffer_length tr (decode_int32_be (headerBuffer tr)).toNat
  simp only [kmip_bio_send_request_encoding, hre]
  norm_num
  split_ifs with h1 h2 h3 h4 h5 <;>
    refine ⟨by simp, by intro s; simp, by simp [writeCount], by simp, ?_⟩
  · exact fun h => absurd h (by simp)
  · exact fun h => absurd h (by simp)
  · intro hok
    refine ⟨by simp [hrb], by simp [hrb, hhl, hbl], ?_⟩
    intro hL
    have hm : (8 + decode_int32_be (headerBuffer tr)) % 18446744073709551616
        = 8 + decode_int32_be (headerBuffer tr) :=
      Int.emod_eq_of_lt (by omega) (by omega)
    simp only [hm, Option.some.injEq]
    omega
  · exact fun h => absurd h (by simp)
  · exact fun h => absurd h (by simp)
  · exact fun h => absurd h (by simp)

/-- Witness for C4: a concrete full passthrough exchange with a 16-byte
declared body. -/
theorem C4_witness :
    alW.reallocOk = true
    ∧ (((kmip_bio_send_request_encoding 1000 reqW alW trOkW).outcome = .ok
      ∨ (kmip_bio_send_request_encoding 1000 reqW alW trOkW).outcome = .ioFailure
      ∨ (kmip_bio_send_request_encoding 1000 reqW alW trOkW).outcome
          = .memoryAllocFailed
      ∨ (kmip_bio_send_request_encoding 1000 reqW alW trOkW).outcome
          = .exceedMaxMessageSize)
    ∧ (∀ s, (kmip_bio_send_request_encoding 1000 reqW alW trOkW).outcome
          ≠ .objectMismatch
        ∧ (kmip_bio_send_request_encoding 1000 reqW alW trOkW).outcome
            ≠ .malformedResponse
        ∧ (kmip_bio_send_request_encoding 1000 reqW alW trOkW).outcome ≠ .status s)
    ∧ writeCount (kmip_bio_send_request_encoding 1000 reqW alW trOkW).trace = 1
    ∧ (kmip_bio_send_request_encoding 1000 reqW alW trOkW).trace.head? =
        some (Event.writeEv reqW trOkW.writeRet)
    ∧ ((kmip_bio_send_request_encoding 1000 reqW alW trOkW).outcome = .ok →
        (kmip_bio_send_request_encoding 1000 reqW alW trOkW).responseOut =
          some (headerBuffer trOkW ++
            bodyBuffer trOkW (decode_int32_be (headerBuffer trOkW)).toNat)
        ∧ ((kmip_bio_send_request_encoding 1000 reqW alW trOkW).responseOut.map
            List.length)
            = some (8 + (decode_int32_be (headerBuffer trOkW)).toNat)
        ∧ (0 ≤ decode_int32_be (headerBuffer trOkW) →
            (kmip_bio_send_request_encoding 1000 reqW alW trOkW).responseSizeOut =
              some (8 + (decode_int32_be (headerBuffer trOkW)).toNat)))) :=
  ⟨rfl, C4_raw_passthrough_contract 1000 reqW alW trOkW rfl⟩

/-- A decoder oracle returning a well-shaped successful response whose get
payload declares a non-symmetric-key object type. -/
def decMismatchW : List Nat → DecodeResult := fun _ =>
  .ok ⟨1, some [⟨.success, some (.get ⟨.other 0, none⟩)⟩]⟩

/-- A decoder oracle returning a response with batch count 0 and an empty
batch item list. -/
def decBadBatchW : List Nat → DecodeResult := fun _ => .ok ⟨0, some []⟩

/-- C5: when a `kmip_bio_get_symmetric_key` exchange decodes into a
well-shaped, success-status response whose payload has an object type other
than `KMIP_OBJTYPE_SYMMETRIC_KEY`, or a key format other than
`KMIP_KEYFORMAT_RAW`, or non-null key wrapping data, the call returns
`KMIP_OBJECT_MISMATCH` and stores nothing through `*key` and `*key_size`. -/
theorem C5_get_object_mismatch (mms : Int) (enc : EncodeOracle)
    (al : AllocOracle) (tr : Transport) (dec : List Nat → DecodeResult)
    (b : Nat) (rm : response_message) (items : List response_batch_item)
    (item : response_batch_item) (p : get_response_payload)
    (hinit : al.initOk = true)
    (henc : encodeRetry al.growOk enc.requiredSize enc.finalResult 1 = .success b)
    (hw : tr.writeRet = (enc.encodedLen : Int))
    (hho : al.headerOk = true)
    (hr1 : tr.headerRet = 8)
    (hLle : ¬ decode_int32_be (headerBuffer tr) > mms)
    (hre : al.reallocOk = true)
    (hr2 : tr.bodyRet = decode_int32_be (headerBuffer tr))
    (hdec : dec (receivedBuffer tr al) = .ok rm)
    (hitems : rm.batchItems = some items)
    (hcount : rm.batchCount = 1)
    (hhead : items.head? = some item)
    (hstat : item.resultStatus = .success)
    (hpay : item.responsePayload = some (.get p))
    (hbad : p.objectType ≠ .symmetricKey
      ∨ ∃ sk blk, p.object = some sk ∧ sk.keyBlock = some blk
          ∧ (blk.keyFormatType ≠ .raw ∨ blk.keyWrappingData ≠ none)) :
    (kmip_bio_get_symmetric_key mms enc al tr dec).outcome = .objectMismatch
    ∧ (kmip_bio_get_symmetric_key mms enc al tr dec).keyOut = none
    ∧ (kmip_bio_get_symmetric_key mms enc al tr dec).keySizeOut = none := by
  simp only [kmip_bio_get_symmetric_key, hinit, henc, hw, hho, hr1, hLle, hre,
    hr2, hdec, hitems, hcount, hhead, hstat, hpay]
  norm_num
  rcases hbad with hobj | ⟨sk, blk, hsk, hblk, hfmt⟩
  · simp [hobj]
  · by_cases hobj : p.objectType = .symmetricKey
    · simp [hobj, hsk, hblk, hfmt]
    · simp [hobj]

/-- Witness for C5: a success-status response carrying a get payload whose
object type is not a symmetric key yields `KMIP_OBJECT_MISMATCH` with both
key outputs unpopulated. -/
theorem C5_witness :
    decMismatchW (receivedBuffer trOkW alW)
      = .ok ⟨1, some [⟨.success, some (.get ⟨.other 0, none⟩)⟩]⟩
    ∧ (object_type.other 0 ≠ object_type.symmetricKey)
    ∧ (kmip_bio_get_symmetric_key 1000 encW alW trOkW decMismatchW).outcome
        = .objectMismatch
    ∧ (kmip_bio_get_symmetric_key 1000 encW alW trOkW decMismatchW).keyOut = none
    ∧ (kmip_bio_get_symmetric_key 1000 encW alW trOkW decMismatchW).keySizeOut
        = none :=
  ⟨rfl, by decide,
    C5_get_object_mismatch 1000 encW alW trOkW decMismatchW 1
      ⟨1, some [⟨.success, some (.get ⟨.other 0, none⟩)⟩]⟩
      [⟨.success, some (.get ⟨.other 0, none⟩)⟩]
      ⟨.success, some (.get ⟨.other 0, none⟩)⟩
      ⟨.other 0, none⟩
      rfl (encodeRetry_done _ _ _ _ (by norm_num [encW])) rfl rfl rfl
      (by decide) rfl (by decide) rfl rfl rfl rfl rfl rfl
      (Or.inl (by decide))⟩

/-- C6: in every operation that decodes a response (create, destroy,
getSymmetricKey), a decoded response whose batch count differs from 1 or
whose batch item list is null or empty — the decoder always produces a list
whose length equals the decoded batch count, which the consistency
hypothesis records — makes the call return `KMIP_MALFORMED_RESPONSE`, and
the batch item is never accessed. -/
theorem C6_malformed_batch_shape (mms : Int) (enc : EncodeOracle)
    (al : AllocOracle) (tr : Transport) (dec : List Nat → DecodeResult)
    (b : Nat) (rm : response_message)
    (hinit : al.initOk = true)
    (henc : encodeRetry al.growOk enc.requiredSize enc.finalResult 1 = .success b)
    (hw : tr.writeRet = (enc.encodedLen : Int))
    (hho : al.headerOk = true)
    (hr1 : tr.headerRet = 8)
    (hLle : ¬ decode_int32_be (headerBuffer tr) > mms)
    (hre : al.reallocOk = true)
    (hr2 : tr.bodyRet = decode_int32_be (headerBuffer tr))
    (hdec : dec (receivedBuffer tr al) = .ok rm)
    (hcons : ∀ l, rm.batchItems = some l → (l.length : Int) = rm.batchCount)
    (hbad : rm.batchCount ≠ 1 ∨ rm.batchItems = none ∨ rm.batchItems = some []) :
    ((kmip_bio_create mms enc al tr dec).outcome = .malformedResponse
      ∧ Event.batchItemEv ∉ (kmip_bio_create mms enc al tr dec).trace)
    ∧ ((kmip_bio_destroy mms enc al tr dec).outcome = .malformedResponse
      ∧ Event.batchItemEv ∉ (kmip_bio_destroy mms enc al tr dec).trace)
    ∧ ((kmip_bio_get_symmetric_key mms enc al tr dec).outcome = .malformedResponse
      ∧ Event.batchItemEv ∉ (kmip_bio_get_symmetric_key mms enc al tr dec).trace) := by
  cases hb : rm.batchItems with
  | none =>
    refine ⟨⟨?_, ?_⟩, ⟨?_, ?_⟩, ⟨?_, ?_⟩⟩ <;>
      simp [kmip_bio_create, kmip_bio_destroy, kmip_bio_get_symmetric_key,
        hinit, henc, hw, hho, hr1, hLle, hre, hr2, hdec, hb]
  | some l =>
    have hc1 : rm.batchCount ≠ 1 := by
      rcases hbad with h | h | h
      · exact h
      · rw [hb] at h
        exact absurd h (by simp)
      · rw [hb] at h
        have hl : l = [] := by injection h
        have := hcons l hb
        rw [hl] at this
        simp at this
        omega
    refine ⟨⟨?_, ?_⟩, ⟨?_, ?_⟩, ⟨?_, ?_⟩⟩ <;>
      simp [kmip_bio_create, kmip_bio_destroy, kmip_bio_get_symmetric_key,
        hinit, henc, hw, hho, hr1, hLle, hre, hr2, hdec, hb, hc1]

/-- Witness for C6: a response decoding to batch count 0 with an empty batch
list makes all three decoding operations return `KMIP_MALFORMED_RESPONSE`
without touching a batch item. -/
theorem C6_witness :
    decBadBatchW (receivedBuffer trOkW alW) = .ok ⟨0, some []⟩
    ∧ (((kmip_bio_create 1000 encW alW trOkW decBadBatchW).outcome
          = .malformedResponse
      ∧ Event.batchItemEv ∉ (kmip_bio_create 1000 encW alW trOkW decBadBatchW).trace)
    ∧ ((kmip_bio_destroy 1000 encW alW trOkW decBadBatchW).outcome
          = .malformedResponse
      ∧ Event.batchItemEv ∉ (kmip_bio_destroy 1000 encW alW trOkW decBadBatchW).trace)
    ∧ ((kmip_bio_get_symmetric_key 1000 encW alW trOkW decBadBatchW).outcome
          = .malformedResponse
      ∧ Event.batchItemEv ∉
          (kmip_bio_get_symmetric_key 1000 encW alW trOkW decBadBatchW).trace)) :=
  ⟨rfl,
    C6_malformed_batch_shape 1000 encW alW trOkW decBadBatchW 1 ⟨0, some []⟩
      rfl (encodeRetry_done _ _ _ _ (by norm_num [encW])) rfl rfl rfl
      (by decide) rfl (by decide) rfl (by intro l hl; injection hl with h; rw [← h]; rfl)
      (Or.inl (by decide))⟩

/-- C7: for every operation, a transport write reporting fewer bytes than
requested, a header read reporting fewer than 8 bytes, or a body read
reporting fewer than the declared length each ends the call immediately with
`KMIP_IO_FAILURE` and no retry: the whole run is exactly the I/O calls made
so far, as the full run results show. -/
theorem C7_short_io_failure (mms : Int) (enc : EncodeOracle) (al : AllocOracle)
    (ta tb tc : Transport) (dec : List Nat → DecodeResult) (request : List Nat)
    (b : Nat)
    (hinit : al.initOk = true)
    (henc : encodeRetry al.growOk enc.requiredSize enc.finalResult 1 = .success b)
    (hlen : (request.length : Int) = (enc.encodedLen : Int))
    (hho : al.headerOk = true)
    (hre : al.reallocOk = true)
    (ha : ta.writeRet ≠ (enc.encodedLen : Int))
    (hbw : tb.writeRet = (enc.encodedLen : Int))
    (hbr : tb.headerRet ≠ 8)
    (hcw : tc.writeRet = (enc.encodedLen : Int))
    (hcr1 : tc.headerRet = 8)
    (hcL : ¬ decode_int32_be (headerBuffer tc) > mms)
    (hcr2 : tc.bodyRet ≠ decode_int32_be (headerBuffer tc)) :
    (kmip_bio_create mms enc al ta dec
      = ⟨.ioFailure, [Event.writeEv enc.encodedBytes ta.writeRet], none, none⟩)
    ∧ (kmip_bio_destroy mms enc al ta dec
      = ⟨.ioFailure, [Event.writeEv enc.encodedBytes ta.writeRet]⟩)
    ∧ (kmip_bio_get_symmetric_key mms enc al ta dec
      = ⟨.ioFailure, [Event.writeEv enc.encodedBytes ta.writeRet], none, none⟩)
    ∧ (kmip_bio_send_request_encoding mms request al ta
      = ⟨.ioFailure, [Event.writeEv request ta.writeRet], none, none⟩)
    ∧ (kmip_bio_create mms enc al tb dec
      = ⟨.ioFailure, [Event.writeEv enc.encodedBytes tb.writeRet,
          Event.readEv 8 tb.headerRet], none, none⟩)
    ∧ (kmip_bio_destroy mms enc al tb dec
      = ⟨.ioFailure, [Event.writeEv enc.encodedBytes tb.writeRet,
          Event.readEv 8 tb.headerRet]⟩)
    ∧ (kmip_bio_get_symmetric_key mms enc al tb dec
      = ⟨.ioFailure, [Event.writeEv enc.encodedBytes tb.writeRet,
          Event.readEv 8 tb.headerRet], none, none⟩)
    ∧ (kmip_bio_send_request_encoding mms request al tb
      = ⟨.ioFailure, [Event.writeEv request tb.writeRet,
          Event.readEv 8 tb.headerRet], none, none⟩)
    ∧ (kmip_bio_create mms enc al tc dec
      = ⟨.ioFailure, [Event.writeEv enc.encodedBytes tc.writeRet,
          Event.readEv 8 tc.headerRet,
          Event.reallocEv (decode_int32_be (headerBuffer tc)) true,
          Event.memsetEv 8 (decode_int32_be (headerBuffer tc)),
          Event.readEv (decode_int32_be (headerBuffer tc)) tc.bodyRet],
          none, none⟩)
    ∧ (kmip_bio_destroy mms enc al tc dec
      = ⟨.ioFailure, [Event.writeEv enc.encodedBytes tc.writeRet,
          Event.readEv 8 tc.headerRet,
          Event.reallocEv (decode_int32_be (headerBuffer tc)) true,
          Event.memsetEv 8 (decode_int32_be (headerBuffer tc)),
          Event.readEv (decode_int32_be (headerBuffer tc)) tc.bodyRet]⟩)
    ∧ (kmip_bio_get_symmetric_key mms enc al tc dec
      = ⟨.ioFailure, [Event.writeEv enc.encodedBytes tc.writeRet,
          Event.readEv 8 tc.headerRet,
          Event.reallocEv (decode_int32_be (headerBuffer tc)) true,
          Event.memsetEv 8 (decode_int32_be (headerBuffer tc)),
          Event.readEv (decode_int32_be (headerBuffer tc)) tc.bodyRet],
          none, none⟩)
    ∧ (kmip_bio_send_request_encoding mms request al tc
      = ⟨.ioFailure, [Event.writeEv request tc.writeRet,
          Event.readEv 8 tc.headerRet,
          Event.reallocEv (decode_int32_be (headerBuffer tc)) true,
          Event.memsetEv 8 (decode_int32_be (headerBuffer tc)),
          Event.readEv (decode_int32_be (headerBuffer tc)) tc.bodyRet],
          none, none⟩) := by
  have ha2 : ta.writeRet ≠ (request.length : Int) := by
    rw [hlen]
    exact ha
  have hbw2 : tb.writeRet = (request.length : Int) := by
    rw [hlen]
    exact hbw
  have hcw2 : tc.writeRet = (request.length : Int) := by
    rw [hlen]
    exact hcw
  have hlen2 : enc.encodedLen = request.length := by
    exact_mod_cast hlen.symm
  refine ⟨?_, ?_, ?_, ?_, ?_, ?_, ?_, ?_, ?_, ?_, ?_, ?_⟩ <;>
    simp [kmip_bio_create, kmip_bio_destroy, kmip_bio_get_symmetric_key,
      kmip_bio_send_request_encoding, hinit, henc, hho, hre, ha, ha2, hbw, hbw2,
      hbr, hcw, hcw2, hcr1, hcL, hcr2, hlen2]

/-- A transport oracle whose write reports 50 of the 100 requested bytes. -/
def trShortWriteW : Transport := ⟨50, [], 0, [], 0⟩

/-- A transport oracle whose header read reports 3 of the 8 requested bytes. -/
def trShortHeaderW : Transport := ⟨100, [], 3, [], 0⟩

/-- A transport oracle whose body read reports 5 of the 16 declared bytes. -/
def trShortBodyW : Transport := ⟨100, [0, 0, 0, 0, 0, 0, 0, 16], 8, [], 5⟩

/-- Witness for C7: concrete short-write, short-header-read and
short-body-read transports each stop every operation with `KMIP_IO_FAILURE`
and exactly the I/O performed so far. -/
theorem C7_witness :
    (kmip_bio_create 1000 encW alW trShortWriteW decW
      = ⟨.ioFailure, [Event.writeEv encW.encodedBytes trShortWriteW.writeRet],
          none, none⟩)
    ∧ (kmip_bio_destroy 1000 encW alW trShortWriteW decW
      = ⟨.ioFailure, [Event.writeEv encW.encodedBytes trShortWriteW.writeRet]⟩)
    ∧ (kmip_bio_get_symmetric_key 1000 encW alW trShortWriteW decW
      = ⟨.ioFailure, [Event.writeEv encW.encodedBytes trShortWriteW.writeRet],
          none, none⟩)
    ∧ (kmip_bio_send_request_encoding 1000 reqW alW trShortWriteW
      = ⟨.ioFailure, [Event.writeEv reqW trShortWriteW.writeRet], none, none⟩)
    ∧ (kmip_bio_create 1000 encW alW trShortHeaderW decW
      = ⟨.ioFailure, [Event.writeEv encW.encodedBytes trShortHeaderW.writeRet,
          Event.readEv 8 trShortHeaderW.headerRet], none, none⟩)
    ∧ (kmip_bio_destroy 1000 encW alW trShortHeaderW decW
      = ⟨.ioFailure, [Event.writeEv encW.encodedBytes trShortHeaderW.writeRet,
          Event.readEv 8 trShortHeaderW.headerRet]⟩)
    ∧ (kmip_bio_get_symmetric_key 1000 encW alW trShortHeaderW decW
      = ⟨.ioFailure, [Event.writeEv encW.encodedBytes trShortHeaderW.writeRet,
          Event.readEv 8 trShortHeaderW.headerRet], none, none⟩)
    ∧ (kmip_bio_send_request_encoding 1000 reqW alW trShortHeaderW
      = ⟨.ioFailure, [Event.writeEv reqW trShortHeaderW.writeRet,
          Event.readEv 8 trShortHeaderW.headerRet], none, none⟩)
    ∧ (kmip_bio_create 1000 encW alW trShortBodyW decW
      = ⟨.ioFailure, [Event.writeEv encW.encodedBytes trShortBodyW.writeRet,
          Event.readEv 8 trShortBodyW.headerRet,
          Event.reallocEv (decode_int32_be (headerBuffer trShortBodyW)) true,
          Event.memsetEv 8 (decode_int32_be (headerBuffer trShortBodyW)),
          Event.readEv (decode_int32_be (headerBuffer trShortBodyW))
            trShortBodyW.bodyRet], none, none⟩)
    ∧ (kmip_bio_destroy 1000 encW alW trShortBodyW decW
      = ⟨.ioFailure, [Event.writeEv encW.encodedBytes trShortBodyW.writeRet,
          Event.readEv 8 trShortBodyW.headerRet,
          Event.reallocEv (decode_int32_be (headerBuffer trShortBodyW)) true,
          Event.memsetEv 8 (decode_int32_be (headerBuffer trShortBodyW)),
          Event.readEv (decode_int32_be (headerBuffer trShortBodyW))
            trShortBodyW.bodyRet]⟩)
    ∧ (kmip_bio_get_symmetric_key 1000 encW alW trShortBodyW decW
      = ⟨.ioFailure, [Event.writeEv encW.encodedBytes trShortBodyW.writeRet,
          Event.readEv 8 trShortBodyW.headerRet,
          Event.reallocEv (decode_int32_be (headerBuffer trShortBodyW)) true,
          Event.memsetEv 8 (decode_int32_be (headerBuffer trShortBodyW)),
          Event.readEv (decode_int32_be (headerBuffer trShortBodyW))
            trShortBodyW.bodyRet], none, none⟩)
    ∧ (kmip_bio_send_request_encoding 1000 reqW alW trShortBodyW
      = ⟨.ioFailure, [Event.writeEv reqW trShortBodyW.writeRet,
          Event.readEv 8 trShortBodyW.headerRet,
          Event.reallocEv (decode_int32_be (headerBuffer trShortBodyW)) true,
          Event.memsetEv 8 (decode_int32_be (headerBuffer trShortBodyW)),
          Event.readEv (decode_int32_be (headerBuffer trShortBodyW))
            trShortBodyW.bodyRet], none, none⟩) :=
  C7_short_io_failure 1000 encW alW trShortWriteW trShortHeaderW trShortBodyW
    decW reqW 1
    rfl (encodeRetry_done _ _ _ _ (by norm_num [encW])) rfl rfl rfl
    (by decide) rfl (by decide) rfl rfl (by decide) (by decide)

/-- C8: in the encode-retry loop shared verbatim by create, destroy and
getSymmetricKey, a codec run that reports "buffer too small" exactly `N`
times before succeeding performs exactly `N` regrowths, each adding one
fixed 1024-byte block, ending with `N + 1` blocks — 1024 · (N + 1) bytes,
the smallest block multiple that accommodates the required size; the loop
has no iteration cap (every regrowth count is reachable) and exits only when
encoding stops reporting a full buffer or a regrowth allocation fails. -/
theorem C8_encode_retry_growth (growOk : Nat → Bool) (S N : Nat)
    (hgrow : ∀ n, growOk n = true)
    (hlo : N = 0 ∨ 1024 * N < S)
    (hhi : S ≤ 1024 * (N + 1)) :
    encodeRetry growOk S .ok 1 = .success (N + 1)
    ∧ (∀ k, 1 ≤ k → S ≤ 1024 * k → N + 1 ≤ k)
    ∧ (∀ M : Nat, ∃ S2, encodeRetry growOk S2 .ok 1 = .success (M + 1))
    ∧ (∀ (g : Nat → Bool) (S2 : Nat) (final : EncodeFinal) (blocks : Nat),
        encodeRetry g S2 final blocks = .allocFailed
        ∨ (∃ b2, final = .ok ∧ encodeRetry g S2 final blocks = .success b2)
        ∨ (∃ c b2, final = .err c ∧
            encodeRetry g S2 final blocks = .encodeErr c b2)) := by
  refine ⟨?_, ?_, ?_, ?_⟩
  · rw [encodeRetry_ok growOk hgrow S 1]
    congr 1
    omega
  · intro k hk hSk
    omega
  · intro M
    refine ⟨1024 * M + 1, ?_⟩
    rw [encodeRetry_ok growOk hgrow _ 1]
    congr 1
    omega
  · intro g S2 final blocks
    exact encodeRetry_exits g S2 final blocks

/-- Witness for C8: a codec needing 1025 bytes reports "too small" exactly
once from the 1024-byte start, forcing exactly one regrowth to 2048 bytes. -/
theorem C8_witness :
    encodeRetry (fun _ => true) 1025 .ok 1 = .success 2
    ∧ (∀ k, 1 ≤ k → 1025 ≤ 1024 * k → 2 ≤ k)
    ∧ (∀ M : Nat, ∃ S2, encodeRetry (fun _ => true) S2 .ok 1 = .success (M + 1))
    ∧ (∀ (g : Nat → Bool) (S2 : Nat) (final : EncodeFinal) (blocks : Nat),
        encodeRetry g S2 final blocks = .allocFailed
        ∨ (∃ b2, final = .ok ∧ encodeRetry g S2 final blocks = .success b2)
        ∨ (∃ c b2, final = .err c ∧
            encodeRetry g S2 final blocks = .encodeErr c b2)) :=
  C8_encode_retry_growth (fun _ => true) 1025 1 (fun _ => rfl)
    (Or.inr (by norm_num)) (by norm_num)

/-- C9: every buffer the engine allocates with `calloc_func` is zero-filled
(the initial encode buffer and the 8-byte header buffer), and after the
body-growth reallocation exactly the added `declaredLength` bytes are zeroed
— the 8 header bytes are untouched and the grown region is all zeros
whatever the reallocation exposed — before the body read: in every
operation's trace the zeroing call sits between the reallocation and the
body read. -/
theorem C9_zero_fill_before_use (mms : Int) (enc : EncodeOracle)
    (al : AllocOracle) (tr : Transport) (dec : List Nat → DecodeResult)
    (request : List Nat) (b : Nat)
    (hinit : al.initOk = true)
    (henc : encodeRetry al.growOk enc.requiredSize enc.finalResult 1 = .success b)
    (hw : tr.writeRet = (enc.encodedLen : Int))
    (hwr : tr.writeRet = (request.length : Int))
    (hho : al.headerOk = true)
    (hr1 : tr.headerRet = 8)
    (hLle : ¬ decode_int32_be (headerBuffer tr) > mms)
    (hre : al.reallocOk = true) :
    (∀ n, callocBuf n = List.replicate n 0)
    ∧ (∀ hdr junk L, hdr.length = 8 →
        memsetRange (reallocExtend hdr junk L) 8 L = hdr ++ List.replicate L 0)
    ∧ (kmip_bio_create mms enc al tr dec).trace.take 5 =
        [Event.writeEv enc.encodedBytes tr.writeRet, Event.readEv 8 tr.headerRet,
         Event.reallocEv (decode_int32_be (headerBuffer tr)) true,
         Event.memsetEv 8 (decode_int32_be (headerBuffer tr)),
         Event.readEv (decode_int32_be (headerBuffer tr)) tr.bodyRet]
    ∧ (kmip_bio_destroy mms enc al tr dec).trace.take 5 =
        [Event.writeEv enc.encodedBytes tr.writeRet, Event.readEv 8 tr.headerRet,
         Event.reallocEv (decode_int32_be (headerBuffer tr)) true,
         Event.memsetEv 8 (decode_int32_be (headerBuffer tr)),
         Event.readEv (decode_int32_be (headerBuffer tr)) tr.bodyRet]
    ∧ (kmip_bio_get_symmetric_key mms enc al tr dec).trace.take 5 =
        [Event.writeEv enc.encodedBytes tr.writeRet, Event.readEv 8 tr.headerRet,
         Event.reallocEv (decode_int32_be (headerBuffer tr)) true,
         Event.memsetEv 8 (decode_int32_be (headerBuffer tr)),
         Event.readEv (decode_int32_be (headerBuffer tr)) tr.bodyRet]
    ∧ (kmip_bio_send_request_encoding mms request al tr).trace.take 5 =
        [Event.writeEv request tr.writeRet, Event.readEv 8 tr.headerRet,
         Event.reallocEv (decode_int32_be (headerBuffer tr)) true,
         Event.memsetEv 8 (decode_int32_be (headerBuffer tr)),
         Event.readEv (decode_int32_be (headerBuffer tr)) tr.bodyRet] :=
  ⟨fun _ => rfl,
   fun hdr junk L h => memsetRange_reallocExtend hdr junk L h,
   (create_after_length_check mms enc al tr dec b hinit henc hw hho hr1 hLle hre).1,
   (destroy_after_length_check mms enc al tr dec b hinit henc hw hho hr1 hLle hre).1,
   (get_after_length_check mms enc al tr dec b hinit henc hw hho hr1 hLle hre).1,
   (raw_after_length_check mms request al tr hwr hho hr1 hLle hre).1⟩

/-- Witness for C9: the concrete 16-byte-body exchange shows the zeroing
call between the reallocation and the body read in all four operations. -/
theorem C9_witness :
    (∀ n, callocBuf n = List.replicate n 0)
    ∧ (∀ hdr junk L, hdr.length = 8 →
        memsetRange (reallocExtend hdr junk L) 8 L = hdr ++ List.replicate L 0)
    ∧ (kmip_bio_create 1000 encW alW trOkW decW).trace.take 5 =
        [Event.writeEv encW.encodedBytes trOkW.writeRet,
         Event.readEv 8 trOkW.headerRet,
         Event.reallocEv (decode_int32_be (headerBuffer trOkW)) true,
         Event.memsetEv 8 (decode_int32_be (headerBuffer trOkW)),
         Event.readEv (decode_int32_be (headerBuffer trOkW)) trOkW.bodyRet]
    ∧ (kmip_bio_destroy 1000 encW alW trOkW decW).trace.take 5 =
        [Event.writeEv encW.encodedBytes trOkW.writeRet,
         Event.readEv 8 trOkW.headerRet,
         Event.reallocEv (decode_int32_be (headerBuffer trOkW)) true,
         Event.memsetEv 8 (decode_int32_be (headerBuffer trOkW)),
         Event.readEv (decode_int32_be (headerBuffer trOkW)) trOkW.bodyRet]
    ∧ (kmip_bio_get_symmetric_key 1000 encW alW trOkW decW).trace.take 5 =
        [Event.writeEv encW.encodedBytes trOkW.writeRet,
         Event.readEv 8 trOkW.headerRet,
         Event.reallocEv (decode_int32_be (headerBuffer trOkW)) true,
         Event.memsetEv 8 (decode_int32_be (headerBuffer trOkW)),
         Event.readEv (decode_int32_be (headerBuffer trOkW)) trOkW.bodyRet]
    ∧ (kmip_bio_send_request_encoding 1000 reqW alW trOkW).trace.take 5 =
        [Event.writeEv reqW trOkW.writeRet, Event.readEv 8 trOkW.headerRet,
         Event.reallocEv (decode_int32_be (headerBuffer trOkW)) true,
         Event.memsetEv 8 (decode_int32_be (headerBuffer trOkW)),
         Event.readEv (decode_int32_be (headerBuffer trOkW)) trOkW.bodyRet] :=
  C9_zero_fill_before_use 1000 encW alW trOkW decW reqW 1
    rfl (encodeRetry_done _ _ _ _ (by norm_num [encW])) rfl rfl rfl rfl
    (by decide) rfl

/-- C10: the declared body length is decoded as a signed big-endian 32-bit
integer and only the upper bound is checked: with a non-negative
`max_message_size`, every negative declared length passes the
`KMIP_EXCEED_MAX_MESSAGE_SIZE` check, and the negative value is then handed
to the reallocation as the growth amount and to the body read as the
requested byte count, in every operation's receiver. -/
theorem C10_negative_length_not_rejected (mms : Int) (enc : EncodeOracle)
    (al : AllocOracle) (tr : Transport) (dec : List Nat → DecodeResult)
    (request : List Nat) (b : Nat)
    (hinit : al.initOk = true)
    (henc : encodeRetry al.growOk enc.requiredSize enc.finalResult 1 = .success b)
    (hw : tr.writeRet = (enc.encodedLen : Int))
    (hwr : tr.writeRet = (request.length : Int))
    (hho : al.headerOk = true)
    (hr1 : tr.headerRet = 8)
    (hre : al.reallocOk = true)
    (hneg : decode_int32_be (headerBuffer tr) < 0)
    (hmms : 0 ≤ mms) :
    ((kmip_bio_create mms enc al tr dec).outcome ≠ .exceedMaxMessageSize
      ∧ Event.reallocEv (decode_int32_be (headerBuffer tr)) true
          ∈ (kmip_bio_create mms enc al tr dec).trace
      ∧ Event.readEv (decode_int32_be (headerBuffer tr)) tr.bodyRet
          ∈ (kmip_bio_create mms enc al tr dec).trace)
    ∧ ((kmip_bio_destroy mms enc al tr dec).outcome ≠ .exceedMaxMessageSize
      ∧ Event.reallocEv (decode_int32_be (headerBuffer tr)) true
          ∈ (kmip_bio_destroy mms enc al tr dec).trace
      ∧ Event.readEv (decode_int32_be (headerBuffer tr)) tr.bodyRet
          ∈ (kmip_bio_destroy mms enc al tr dec).trace)
    ∧ ((kmip_bio_get_symmetric_key mms enc al tr dec).outcome
          ≠ .exceedMaxMessageSize
      ∧ Event.reallocEv (decode_int32_be (headerBuffer tr)) true
          ∈ (kmip_bio_get_symmetric_key mms enc al tr dec).trace
      ∧ Event.readEv (decode_int32_be (headerBuffer tr)) tr.bodyRet
          ∈ (kmip_bio_get_symmetric_key mms enc al tr dec).trace)
    ∧ ((kmip_bio_send_request_encoding mms request al tr).outcome
          ≠ .exceedMaxMessageSize
      ∧ Event.reallocEv (decode_int32_be (headerBuffer tr)) true
          ∈ (kmip_bio_send_request_encoding mms request al tr).trace
      ∧ Event.readEv (decode_int32_be (headerBuffer tr)) tr.bodyRet
          ∈ (kmip_bio_send_request_encoding mms request al tr).trace) := by
  have hLle : ¬ decode_int32_be (headerBuffer tr) > mms := by omega
  have hc := create_after_length_check mms enc al tr dec b hinit henc hw hho hr1 hLle hre
  have hd := destroy_after_length_check mms enc al tr dec b hinit henc hw hho hr1 hLle hre
  have hg := get_after_length_check mms enc al tr dec b hinit henc hw hho hr1 hLle hre
  have hraw := raw_after_length_check mms request al tr hwr hho hr1 hLle hre
  refine ⟨⟨hc.2, ?_, ?_⟩, ⟨hd.2, ?_, ?_⟩, ⟨hg.2, ?_, ?_⟩, ⟨hraw.2, ?_, ?_⟩⟩
  · exact List.take_subset _ _ (by rw [hc.1]; simp)
  · exact List.take_subset _ _ (by rw [hc.1]; simp)
  · exact List.take_subset _ _ (by rw [hd.1]; simp)
  · exact List.take_subset _ _ (by rw [hd.1]; simp)
  · exact List.take_subset _ _ (by rw [hg.1]; simp)
  · exact List.take_subset _ _ (by rw [hg.1]; simp)
  · exact List.take_subset _ _ (by rw [hraw.1]; simp)
  · exact List.take_subset _ _ (by rw [hraw.1]; simp)

/-- A transport oracle whose header length field is `FF FF FF FF`, the
signed 32-bit value -1. -/
def trNegW : Transport := ⟨100, [0, 0, 0, 0, 255, 255, 255, 255], 8, [], 0⟩

/-- Witness for C10: a header declaring length -1 passes the size check
against `max_message_size = 1000` in all four operations, and -1 is used as
the reallocation growth and the requested body-read count. -/
theorem C10_witness :
    decode_int32_be (headerBuffer trNegW) = -1
    ∧ (((kmip_bio_create 1000 encW alW trNegW decW).outcome
          ≠ .exceedMaxMessageSize
      ∧ Event.reallocEv (decode_int32_be (headerBuffer trNegW)) true
          ∈ (kmip_bio_create 1000 encW alW trNegW decW).trace
      ∧ Event.readEv (decode_int32_be (headerBuffer trNegW)) trNegW.bodyRet
          ∈ (kmip_bio_create 1000 encW alW trNegW decW).trace)
    ∧ ((kmip_bio_destroy 1000 encW alW trNegW decW).outcome
          ≠ .exceedMaxMessageSize
      ∧ Event.reallocEv (decode_int32_be (headerBuffer trNegW)) true
          ∈ (kmip_bio_destroy 1000 encW alW trNegW decW).trace
      ∧ Event.readEv (decode_int32_be (headerBuffer trNegW)) trNegW.bodyRet
          ∈ (kmip_bio_destroy 1000 encW alW trNegW decW).trace)
    ∧ ((kmip_bio_get_symmetric_key 1000 encW alW trNegW decW).outcome
          ≠ .exceedMaxMessageSize
      ∧ Event.reallocEv (decode_int32_be (headerBuffer trNegW)) true
          ∈ (kmip_bio_get_symmetric_key 1000 encW alW trNegW decW).trace
      ∧ Event.readEv (decode_int32_be (headerBuffer trNegW)) trNegW.bodyRet
          ∈ (kmip_bio_get_symmetric_key 1000 encW alW trNegW decW).trace)
    ∧ ((kmip_bio_send_request_encoding 1000 reqW alW trNegW).outcome
          ≠ .exceedMaxMessageSize
      ∧ Event.reallocEv (decode_int32_be (headerBuffer trNegW)) true
          ∈ (kmip_bio_send_request_encoding 1000 reqW alW trNegW).trace
      ∧ Event.readEv (decode_int32_be (headerBuffer trNegW)) trNegW.bodyRet
          ∈ (kmip_bio_send_request_encoding 1000 reqW alW trNegW).trace)) :=
  ⟨by decide,
    C10_negative_length_not_rejected 1000 encW alW trNegW decW reqW 1
      rfl (encodeRetry_done _ _ _ _ (by norm_num [encW])) rfl rfl rfl rfl rfl
      (by decide) (by norm_num)⟩

end KmipBio
